import Mathlib

/-!
Shallow embedding of the descriptor engine of `bdk-ffi` (`src/bdk-ffi/src/descriptor.rs`).

The wrapper layer (`Descriptor` and its constructors / methods) is translated directly
from the source file.  The underlying `bdk_wallet` / `miniscript` library operations that
the wrappers call (template building, descriptor parsing, secret-inclusive rendering,
multipath expansion, identity hashing, weight analysis) are not part of this repository's
sources; they are modelled from the specification, each in a definition whose doc comment
starts with `Modelled from the spec:`.

A Rust function that can `panic!` / `unreachable!` / `unwrap` is embedded as a function
into `Except Abort _`: the `.error` side marks a process fault (abort), not a normal
recoverable error return.
-/

/-- Target chain, mirroring `bitcoin_ffi::Network`. -/
inductive Network where
  | bitcoin
  | testnet
  | signet
  | regtest
deriving DecidableEq

/-- Mirrors `bdk_wallet::KeychainKind`: receiving vs change branch. -/
inductive KeychainKind where
  | external
  | internal
deriving DecidableEq

/-- One step of a BIP32 derivation path: child index plus hardened flag. -/
structure ChildStep where
  idx : Nat
  hardened : Bool
deriving DecidableEq

/-- Modelled from the spec: an extended private key (`Xpriv`) is HD key material
identified by its seed and the derivation steps applied to it.  The actual
BIP32/secp256k1 arithmetic lives outside this repository; only the algebra of
derivation, neutering and fingerprints is kept. -/
inductive Xprv where
  | master (seed : Nat)
  | child (parent : Xprv) (step : ChildStep)
deriving DecidableEq

/-- A numeric identifier of the key material, standing in for the serialized key bytes. -/
def Xprv.keyId : Xprv → Nat
  | .master seed => seed
  | .child parent step => Nat.pair parent.keyId (2 * step.idx + (if step.hardened then 1 else 0)) + 1

/-- Modelled from the spec: an extended public key, determined by the underlying key material. -/
structure Xpub where
  val : Nat
deriving DecidableEq

/-- Modelled from the spec: the public counterpart of an extended private key. -/
def Xprv.neuter (k : Xprv) : Xpub :=
  ⟨k.keyId⟩

/-- Private derivation along a whole path. -/
def Xprv.derivePath (k : Xprv) (path : List ChildStep) : Xprv :=
  path.foldl Xprv.child k

/-- Modelled from the spec: the 4-byte master fingerprint of an extended private key. -/
def Xprv.fingerprint (k : Xprv) : Nat :=
  k.keyId % 4294967296

/-- One component of a descriptor key's derivation suffix: a plain child step, or a
BIP389 multipath marker holding several alternative steps. -/
inductive DerivStep where
  | single (step : ChildStep)
  | multi (steps : List ChildStep)
deriving DecidableEq

/-- A public key placeholder inside a descriptor expression, mirroring
`miniscript::DescriptorPublicKey` extended-key data: optional origin
(fingerprint and path), key value, derivation suffix, wildcard flag. -/
structure KeyExpr where
  origin : Option (Nat × List ChildStep)
  xkey : Xpub
  deriv : List DerivStep
  wildcard : Bool
deriving DecidableEq

/-- A private key entry of a key map, mirroring `DescriptorXKey<Xpriv>`. -/
structure SecretKeyExpr where
  origin : Option (Nat × List ChildStep)
  xkey : Xprv
  deriv : List ChildStep
  wildcard : Bool
deriving DecidableEq

/-- The script shape of a descriptor expression.  The four standard template shapes
are kept; `shMs` stands for a general script-hash miniscript body whose
satisfaction-weight analysis may fail (malleable or unresolvable structure). -/
inductive ScriptType where
  | pkh
  | shWpkh
  | wpkh
  | tr
  | shMs (malleable : Bool) (weightBound : Nat)
deriving DecidableEq

/-- Mirrors `bdk_wallet::descriptor::ExtendedDescriptor`: a script shape over its
public key placeholders. -/
structure ExtendedDescriptor where
  scriptTy : ScriptType
  keys : List KeyExpr
deriving DecidableEq

/-- Mirrors `bdk_wallet::keys::KeyMap`: mapping from public placeholders to secrets. -/
abbrev KeyMap := List (KeyExpr × SecretKeyExpr)

/-- The central FFI type, from `descriptor.rs`:
an extended descriptor together with its key map. -/
structure Descriptor where
  extended_descriptor : ExtendedDescriptor
  key_map : KeyMap
deriving DecidableEq

/-- Mirrors `bdk_wallet::keys::DescriptorSecretKey` with its three variants. -/
inductive BdkDescriptorSecretKey where
  | single (key : Nat)
  | xprv (x : SecretKeyExpr)
  | multiXprv (x : SecretKeyExpr)
deriving DecidableEq

/-- Mirrors `bdk_wallet::keys::DescriptorPublicKey` with its three variants. -/
inductive BdkDescriptorPublicKey where
  | single (key : Nat)
  | xpub (x : KeyExpr)
  | multiXpub (x : KeyExpr)
deriving DecidableEq

/-- The error type of `Descriptor::new` and `max_weight_to_satisfy`, mirroring the
kinds of `DescriptorError` used by `descriptor.rs`: a key/network error or a
miniscript (script grammar / analysis) error carrying a message. -/
inductive DescriptorError where
  | key (error_message : String)
  | miniscript (error_message : String)
deriving DecidableEq

/-- The error type of `to_single_descriptors`. -/
inductive MiniscriptError where
  | multipathDescLenMismatch
deriving DecidableEq

/-- A Rust process fault: an `unreachable!()` arm or a failed `unwrap()`. -/
inductive Abort where
  | unreachableArm
  | unwrapFailed
deriving DecidableEq

/-- The underlying script-analysis failure of the weight estimator. -/
inductive SatError where
  | unbounded
deriving DecidableEq

/-- The display message of the underlying analysis failure (`e.to_string()`). -/
def SatError.message : SatError → String
  | .unbounded => "could not statically bound the satisfaction weight"

/-- Hex value of a character code, or `none` when it is not a hex digit. -/
def hexVal? (n : Nat) : Option Nat :=
  if 48 ≤ n ∧ n ≤ 57 then some (n - 48)
  else if 97 ≤ n ∧ n ≤ 102 then some (n - 87)
  else if 65 ≤ n ∧ n ≤ 70 then some (n - 55)
  else none

/-- Modelled from the spec: `bitcoin::bip32::Fingerprint::from_str`, which succeeds
exactly on 8-hex-digit strings (a hex-encoded 4-byte fingerprint). -/
def parseFingerprint (s : String) : Option Nat :=
  if s.data.length = 8 then
    s.data.foldl
      (fun acc c =>
        match acc, hexVal? c.toNat with
        | some a, some v => some (16 * a + v)
        | _, _ => none)
      (some 0)
  else none

/-- Coin type used by the standard templates: 0 on mainnet, 1 on every test network. -/
def coinType : Network → Nat
  | .bitcoin => 0
  | _ => 1

/-- Sub-path index selected by the keychain role: 0 external, 1 internal. -/
def roleIndex : KeychainKind → Nat
  | .external => 0
  | .internal => 1

/-- Hardened template path `purpose'/coin'/0'` of the BIP44-family templates. -/
def templatePath (purpose : Nat) (network : Network) : List ChildStep :=
  [⟨purpose, true⟩, ⟨coinType network, true⟩, ⟨0, true⟩]

/-- Modelled from the spec: `bdk_wallet::template::BipXX(xprv, keychain).build(network)`.
The expression carries the public key derived at the template path, with the root
key's fingerprint and that path as origin, followed by the role step and a wildcard;
the key map maps that placeholder to the root private key. -/
def bipBuild (purpose : Nat) (ty : ScriptType) (xkey : Xprv) (keychain : KeychainKind)
    (network : Network) : ExtendedDescriptor × KeyMap :=
  let path := templatePath purpose network
  let placeholder : KeyExpr :=
    ⟨some (xkey.fingerprint, path), (xkey.derivePath path).neuter,
      [.single ⟨roleIndex keychain, false⟩], true⟩
  (⟨ty, [placeholder]⟩,
    [(placeholder, ⟨none, xkey, path ++ [⟨roleIndex keychain, false⟩], true⟩)])

/-- Modelled from the spec: `bdk_wallet::template::BipXXPublic(xpub, fingerprint,
keychain).build(network)`.  Same expression shape, with the caller-supplied key and
fingerprint, and an empty key map (watch-only). -/
def bipPublicBuild (purpose : Nat) (ty : ScriptType) (xkey : Xpub) (fp : Nat)
    (keychain : KeychainKind) (network : Network) : ExtendedDescriptor × KeyMap :=
  let path := templatePath purpose network
  (⟨ty, [⟨some (fp, path), xkey, [.single ⟨roleIndex keychain, false⟩], true⟩]⟩, [])

/-- Canonical rendering of one path step. -/
def ChildStep.render (c : ChildStep) : String :=
  toString c.idx ++ (if c.hardened then "h" else "")

/-- Canonical rendering of a plain derivation path. -/
def renderSteps (p : List ChildStep) : String :=
  String.intercalate "/" (p.map ChildStep.render)

/-- Canonical rendering of a derivation suffix component. -/
def DerivStep.render : DerivStep → String
  | .single c => c.render
  | .multi cs => "<" ++ String.intercalate ";" (cs.map ChildStep.render) ++ ">"

/-- Canonical rendering of a key origin annotation. -/
def renderOrigin : Option (Nat × List ChildStep) → String
  | none => ""
  | some (fp, p) => "[" ++ toString fp ++ "/" ++ renderSteps p ++ "]"

/-- Canonical rendering of a public key placeholder. -/
def KeyExpr.render (k : KeyExpr) : String :=
  renderOrigin k.origin ++ "xpub" ++ toString k.xkey.val
    ++ String.join (k.deriv.map (fun s => "/" ++ s.render))
    ++ (if k.wildcard then "/*" else "")

/-- Canonical secret-inclusive rendering of a key map entry. -/
def SecretKeyExpr.render (sk : SecretKeyExpr) : String :=
  renderOrigin sk.origin ++ "xprv" ++ toString sk.xkey.keyId
    ++ String.join (sk.deriv.map (fun c => "/" ++ c.render))
    ++ (if sk.wildcard then "/*" else "")

/-- The script function head of the rendering. -/
def headStr : ScriptType → String
  | .pkh => "pkh("
  | .shWpkh => "sh(wpkh("
  | .wpkh => "wpkh("
  | .tr => "tr("
  | .shMs _ _ => "sh(ms("

/-- The closing part of the rendering. -/
def tailStr : ScriptType → String
  | .shWpkh => "))"
  | .shMs _ _ => "))"
  | _ => ")"

/-- Rendering of a whole expression, with a choice of per-key rendering. -/
def renderKeysWith (f : KeyExpr → String) (e : ExtendedDescriptor) : String :=
  headStr e.scriptTy ++ String.intercalate "," (e.keys.map f) ++ tailStr e.scriptTy

/-- Modelled from the spec: the canonical `Display` serialization of an extended
descriptor (secrets excluded). -/
def ExtendedDescriptor.render (e : ExtendedDescriptor) : String :=
  renderKeysWith KeyExpr.render e

/-- First secret associated to a placeholder in a key map. -/
def lookupKey : KeyMap → KeyExpr → Option SecretKeyExpr
  | [], _ => none
  | p :: rest, k => if p.1 = k then some p.2 else lookupKey rest k

/-- Modelled from the spec: `ExtendedDescriptor::to_string_with_secret(key_map)` —
the expression rendered with each placeholder that has a key map entry replaced by
its private form. -/
def toStringWithSecretInner (e : ExtendedDescriptor) (km : KeyMap) : String :=
  renderKeysWith
    (fun k =>
      match lookupKey km k with
      | some sk => sk.render
      | none => k.render)
    e

/-- The multipath arities occurring in one key's derivation suffix. -/
def KeyExpr.multiArities (k : KeyExpr) : List Nat :=
  k.deriv.filterMap
    (fun s =>
      match s with
      | .multi cs => some cs.length
      | .single _ => none)

/-- All multipath arities occurring in an expression, left to right. -/
def ExtendedDescriptor.multiArities (e : ExtendedDescriptor) : List Nat :=
  (e.keys.map KeyExpr.multiArities).flatten

/-- Modelled from the spec: `ExtendedDescriptor::is_multipath()` — whether any key
carries a multipath marker. -/
def isMultipathInner (e : ExtendedDescriptor) : Bool :=
  !e.multiArities.isEmpty

/-- Replace a multipath marker by its `i`-th alternative. -/
def DerivStep.pick (i : Nat) : DerivStep → DerivStep
  | .single c => .single c
  | .multi cs => .single (cs.getD i ⟨0, false⟩)

/-- The `i`-th single-path version of a key. -/
def KeyExpr.expand (k : KeyExpr) (i : Nat) : KeyExpr :=
  { k with deriv := k.deriv.map (DerivStep.pick i) }

/-- The `i`-th single-path version of an expression. -/
def ExtendedDescriptor.expand (e : ExtendedDescriptor) (i : Nat) : ExtendedDescriptor :=
  { e with keys := e.keys.map (fun k => k.expand i) }

/-- Modelled from the spec: `miniscript` `into_single_descriptors`.  A non-multipath
descriptor is returned alone; a multipath descriptor with a consistent arity `n`
expands into its `n` single-path versions in sub-path order; mismatched arities are
a script-grammar error. -/
def intoSingleDescriptors (e : ExtendedDescriptor) :
    Except MiniscriptError (List ExtendedDescriptor) :=
  match e.multiArities with
  | [] => .ok [e]
  | n :: rest =>
    if rest.all (fun m => m == n) then .ok ((List.range n).map e.expand)
    else .error .multipathDescLenMismatch

/-- Modelled from the spec: a deterministic content hash of a string, standing in for
the sha256 used by `DescriptorExt::descriptor_id`. -/
def strHash (s : String) : Nat :=
  s.data.foldl (fun a c => (a * 257 + c.toNat) % 1000000007) 7

/-- Mirrors `crate::bitcoin::DescriptorId`: a wrapped content hash. -/
structure DescriptorId where
  bytes : Nat
deriving DecidableEq

/-- Modelled from the spec: `DescriptorExt::descriptor_id` — a content-derived
identifier computed purely from the canonical expression. -/
def descriptorIdOf (e : ExtendedDescriptor) : DescriptorId :=
  ⟨strHash e.render⟩

/-- Modelled from the spec: `miniscript` `max_weight_to_satisfy` — a static worst-case
satisfaction weight per script class, failing when the structure cannot be bounded. -/
def maxWeightInner (e : ExtendedDescriptor) : Except SatError Nat :=
  match e.scriptTy with
  | .pkh => .ok 432
  | .shWpkh => .ok 201
  | .wpkh => .ok 108
  | .tr => .ok 66
  | .shMs true _ => .error .unbounded
  | .shMs false w => .ok w

/-- One embedded extended key of a descriptor text: the network its encoding commits
to, the placeholder it resolves to, and its private form when the text spells the
secret key. -/
structure TextKey where
  encodedNetwork : Network
  pubKey : KeyExpr
  secret : Option SecretKeyExpr
deriving DecidableEq

/-- A descriptor text, abstracted to its script shape and embedded keys. -/
structure DescriptorText where
  scriptTy : ScriptType
  keys : List TextKey
deriving DecidableEq

/-- Modelled from the spec: `IntoWalletDescriptor::into_wallet_descriptor` — fails
with a `Key` error kind when any embedded extended key's encoded network does not
match the target network; otherwise binds the expression and collects the embedded
secrets into the key map. -/
def intoWalletDescriptor (t : DescriptorText) (network : Network) :
    Except DescriptorError (ExtendedDescriptor × KeyMap) :=
  if ∃ k ∈ t.keys, ¬k.encodedNetwork = network then
    .error (DescriptorError.key "InvalidNetwork")
  else
    .ok (⟨t.scriptTy, t.keys.map TextKey.pubKey⟩,
      t.keys.filterMap (fun k => k.secret.map (fun s => (k.pubKey, s))))

/-- `Descriptor::new` from `descriptor.rs`: parse a text for the given network. -/
def Descriptor.new (descriptor : DescriptorText) (network : Network) :
    Except DescriptorError Descriptor :=
  match intoWalletDescriptor descriptor network with
  | .error e => .error e
  | .ok (extended_descriptor, key_map) => .ok ⟨extended_descriptor, key_map⟩

/-- `Descriptor::new_bip44` from `descriptor.rs`: matches on the secret key variant,
reaches `unreachable!()` on `Single` and `MultiXPrv`, and builds the BIP44 template
from the raw `xkey` otherwise. -/
def Descriptor.new_bip44 (secret_key : BdkDescriptorSecretKey)
    (keychain_kind : KeychainKind) (network : Network) : Except Abort Descriptor :=
  match secret_key with
  | .single _ => .error .unreachableArm
  | .xprv x =>
    let b := bipBuild 44 .pkh x.xkey keychain_kind network
    .ok ⟨b.1, b.2⟩
  | .multiXprv _ => .error .unreachableArm

/-- `Descriptor::new_bip44_public` from `descriptor.rs`: first unwraps the fingerprint
parse, then matches on the public key variant. -/
def Descriptor.new_bip44_public (public_key : BdkDescriptorPublicKey)
    (fingerprint : String) (keychain_kind : KeychainKind) (network : Network) :
    Except Abort Descriptor :=
  match parseFingerprint fingerprint with
  | none => .error .unwrapFailed
  | some fp =>
    match public_key with
    | .single _ => .error .unreachableArm
    | .xpub x =>
      let b := bipPublicBuild 44 .pkh x.xkey fp keychain_kind network
      .ok ⟨b.1, b.2⟩
    | .multiXpub _ => .error .unreachableArm

/-- `Descriptor::new_bip49` from `descriptor.rs`. -/
def Descriptor.new_bip49 (secret_key : BdkDescriptorSecretKey)
    (keychain_kind : KeychainKind) (network : Network) : Except Abort Descriptor :=
  match secret_key with
  | .single _ => .error .unreachableArm
  | .xprv x =>
    let b := bipBuild 49 .shWpkh x.xkey keychain_kind network
    .ok ⟨b.1, b.2⟩
  | .multiXprv _ => .error .unreachableArm

/-- `Descriptor::new_bip49_public` from `descriptor.rs`. -/
def Descriptor.new_bip49_public (public_key : BdkDescriptorPublicKey)
    (fingerprint : String) (keychain_kind : KeychainKind) (network : Network) :
    Except Abort Descriptor :=
  match parseFingerprint fingerprint with
  | none => .error .unwrapFailed
  | some fp =>
    match public_key with
    | .single _ => .error .unreachableArm
    | .xpub x =>
      let b := bipPublicBuild 49 .shWpkh x.xkey fp keychain_kind network
      .ok ⟨b.1, b.2⟩
    | .multiXpub _ => .error .unreachableArm

/-- `Descriptor::new_bip84` from `descriptor.rs`. -/
def Descriptor.new_bip84 (secret_key : BdkDescriptorSecretKey)
    (keychain_kind : KeychainKind) (network : Network) : Except Abort Descriptor :=
  match secret_key with
  | .single _ => .error .unreachableArm
  | .xprv x =>
    let b := bipBuild 84 .wpkh x.xkey keychain_kind network
    .ok ⟨b.1, b.2⟩
  | .multiXprv _ => .error .unreachableArm

/-- `Descriptor::new_bip84_public` from `descriptor.rs`. -/
def Descriptor.new_bip84_public (public_key : BdkDescriptorPublicKey)
    (fingerprint : String) (keychain_kind : KeychainKind) (network : Network) :
    Except Abort Descriptor :=
  match parseFingerprint fingerprint with
  | none => .error .unwrapFailed
  | some fp =>
    match public_key with
    | .single _ => .error .unreachableArm
    | .xpub x =>
      let b := bipPublicBuild 84 .wpkh x.xkey fp keychain_kind network
      .ok ⟨b.1, b.2⟩
    | .multiXpub _ => .error .unreachableArm

/-- `Descriptor::new_bip86` from `descriptor.rs`. -/
def Descriptor.new_bip86 (secret_key : BdkDescriptorSecretKey)
    (keychain_kind : KeychainKind) (network : Network) : Except Abort Descriptor :=
  match secret_key with
  | .single _ => .error .unreachableArm
  | .xprv x =>
    let b := bipBuild 86 .tr x.xkey keychain_kind network
    .ok ⟨b.1, b.2⟩
  | .multiXprv _ => .error .unreachableArm

/-- `Descriptor::new_bip86_public` from `descriptor.rs`. -/
def Descriptor.new_bip86_public (public_key : BdkDescriptorPublicKey)
    (fingerprint : String) (keychain_kind : KeychainKind) (network : Network) :
    Except Abort Descriptor :=
  match parseFingerprint fingerprint with
  | none => .error .unwrapFailed
  | some fp =>
    match public_key with
    | .single _ => .error .unreachableArm
    | .xpub x =>
      let b := bipPublicBuild 86 .tr x.xkey fp keychain_kind network
      .ok ⟨b.1, b.2⟩
    | .multiXpub _ => .error .unreachableArm

/-- The `Display` implementation of `Descriptor`: renders the extended descriptor
only (secrets excluded). -/
def Descriptor.to_string (d : Descriptor) : String :=
  d.extended_descriptor.render

/-- `Descriptor::to_string_with_secret` from `descriptor.rs`. -/
def Descriptor.to_string_with_secret (d : Descriptor) : String :=
  toStringWithSecretInner d.extended_descriptor d.key_map

/-- `Descriptor::is_multipath` from `descriptor.rs`. -/
def Descriptor.is_multipath (d : Descriptor) : Bool :=
  isMultipathInner d.extended_descriptor

/-- `Descriptor::descriptor_id` from `descriptor.rs`: computed from the extended
descriptor alone. -/
def Descriptor.descriptor_id (d : Descriptor) : DescriptorId :=
  descriptorIdOf d.extended_descriptor

/-- `Descriptor::to_single_descriptors` from `descriptor.rs`: expands the extended
descriptor and pairs every output with a clone of this descriptor's key map. -/
def Descriptor.to_single_descriptors (d : Descriptor) :
    Except MiniscriptError (List Descriptor) :=
  match intoSingleDescriptors d.extended_descriptor with
  | .error e => .error e
  | .ok ds => .ok (ds.map (fun e => ⟨e, d.key_map⟩))

/-- `Descriptor::max_weight_to_satisfy` from `descriptor.rs`: maps the underlying
analysis failure into `DescriptorError::Miniscript` carrying its message. -/
def Descriptor.max_weight_to_satisfy (d : Descriptor) : Except DescriptorError Nat :=
  match maxWeightInner d.extended_descriptor with
  | .error e => .error (DescriptorError.miniscript e.message)
  | .ok w => .ok w

/-- The data-model invariant of the spec: a non-empty key map only holds entries whose
public placeholder occurs in the expression. -/
def keyMapConsistent (d : Descriptor) : Prop :=
  ¬d.key_map = [] → ∀ p ∈ d.key_map, p.1 ∈ d.extended_descriptor.keys

/-- A descriptor whose script shape is one of the four standard template shapes. -/
def ScriptType.isStandard : ScriptType → Bool
  | .pkh => true
  | .shWpkh => true
  | .wpkh => true
  | .tr => true
  | .shMs _ _ => false

/-! ## Concrete values used by witnesses and counterexamples -/

/-- A sample parsed expression with one single-path wpkh key. -/
def idExprW : ExtendedDescriptor := ⟨.wpkh, [⟨none, ⟨3⟩, [.single ⟨0, false⟩], true⟩]⟩

/-- The secret entry matching `idExprW`'s placeholder. -/
def idSecretW : SecretKeyExpr := ⟨none, .master 3, [⟨0, false⟩], true⟩

/-- A descriptor text with one testnet-encoded key. -/
def netTextW : DescriptorText :=
  ⟨.wpkh, [⟨.testnet, ⟨none, ⟨9⟩, [.single ⟨0, false⟩], true⟩, none⟩]⟩

/-! ## Theorems -/

/-- C2: the spec requires every template constructor to return a recoverable
precondition-violation error on a `Single` or multipath key variant; the code instead
reaches `unreachable!()`, a process abort.  This theorem evaluates the embedded
constructors at the failing inputs and shows the abort outcome on all eight
constructors and both invalid variants. -/
theorem template_constructor_aborts_on_invalid_variant :
    Descriptor.new_bip44 (.single 0) .external .bitcoin = .error Abort.unreachableArm
    ∧ Descriptor.new_bip49 (.single 0) .external .bitcoin = .error Abort.unreachableArm
    ∧ Descriptor.new_bip84 (.single 0) .external .bitcoin = .error Abort.unreachableArm
    ∧ Descriptor.new_bip86 (.single 0) .external .bitcoin = .error Abort.unreachableArm
    ∧ Descriptor.new_bip44 (.multiXprv ⟨none, .master 0, [], true⟩) .external .bitcoin
        = .error Abort.unreachableArm
    ∧ Descriptor.new_bip49 (.multiXprv ⟨none, .master 0, [], true⟩) .external .bitcoin
        = .error Abort.unreachableArm
    ∧ Descriptor.new_bip84 (.multiXprv ⟨none, .master 0, [], true⟩) .external .bitcoin
        = .error Abort.unreachableArm
    ∧ Descriptor.new_bip86 (.multiXprv ⟨none, .master 0, [], true⟩) .external .bitcoin
        = .error Abort.unreachableArm
    ∧ Descriptor.new_bip44_public (.single 0) "00000000" .external .bitcoin
        = .error Abort.unreachableArm
    ∧ Descriptor.new_bip49_public (.single 0) "00000000" .external .bitcoin
        = .error Abort.unreachableArm
    ∧ Descriptor.new_bip84_public (.single 0) "00000000" .external .bitcoin
        = .error Abort.unreachableArm
    ∧ Descriptor.new_bip86_public (.single 0) "00000000" .external .bitcoin
        = .error Abort.unreachableArm
    ∧ Descriptor.new_bip44_public (.multiXpub ⟨none, ⟨0⟩, [], true⟩) "00000000" .external
        .bitcoin = .error Abort.unreachableArm
    ∧ Descriptor.new_bip49_public (.multiXpub ⟨none, ⟨0⟩, [], true⟩) "00000000" .external
        .bitcoin = .error Abort.unreachableArm
    ∧ Descriptor.new_bip84_public (.multiXpub ⟨none, ⟨0⟩, [], true⟩) "00000000" .external
        .bitcoin = .error Abort.unreachableArm
    ∧ Descriptor.new_bip86_public (.multiXpub ⟨none, ⟨0⟩, [], true⟩) "00000000" .external
        .bitcoin = .error Abort.unreachableArm :=
  ⟨rfl, rfl, rfl, rfl, rfl, rfl, rfl, rfl, rfl, rfl, rfl, rfl, rfl, rfl, rfl, rfl⟩

/-- C10: every public template constructor first unwraps the fingerprint parse, so a
fingerprint string that is not valid 8-digit hex makes it abort (process fault), and
a normal return is only possible when the fingerprint parses. -/
theorem public_constructor_fingerprint_abort :
    (∀ s : String, parseFingerprint s = none →
      ∀ (pk : BdkDescriptorPublicKey) (kk : KeychainKind) (n : Network),
        Descriptor.new_bip44_public pk s kk n = .error Abort.unwrapFailed
        ∧ Descriptor.new_bip49_public pk s kk n = .error Abort.unwrapFailed
        ∧ Descriptor.new_bip84_public pk s kk n = .error Abort.unwrapFailed
        ∧ Descriptor.new_bip86_public pk s kk n = .error Abort.unwrapFailed)
    ∧ (∀ (s : String) (pk : BdkDescriptorPublicKey) (kk : KeychainKind) (n : Network)
        (d : Descriptor),
        (Descriptor.new_bip44_public pk s kk n = .ok d
          ∨ Descriptor.new_bip49_public pk s kk n = .ok d
          ∨ Descriptor.new_bip84_public pk s kk n = .ok d
          ∨ Descriptor.new_bip86_public pk s kk n = .ok d) →
        ¬parseFingerprint s = none) := by
  constructor
  · intro s hs pk kk n
    refine ⟨?_, ?_, ?_, ?_⟩ <;>
      simp only [Descriptor.new_bip44_public, Descriptor.new_bip49_public,
        Descriptor.new_bip84_public, Descriptor.new_bip86_public, hs]
  · intro s pk kk n d h hnone
    rcases h with h | h | h | h <;>
      simp only [Descriptor.new_bip44_public, Descriptor.new_bip49_public,
        Descriptor.new_bip84_public, Descriptor.new_bip86_public, hnone] at h <;>
      exact Except.noConfusion h

/-- Witness for C10 at the non-hex string "zz" and a concrete key. -/
theorem public_constructor_fingerprint_abort_witness :
    Descriptor.new_bip84_public (.xpub ⟨none, ⟨5⟩, [], true⟩) "zz" .external .testnet
      = .error Abort.unwrapFailed :=
  (public_constructor_fingerprint_abort.1 "zz" (by decide)
    (.xpub ⟨none, ⟨5⟩, [], true⟩) .external .testnet).2.2.1

/-- C4: `descriptor_id` is computed from the extended descriptor alone, so two
descriptors with identical expressions share one identifier whatever their key maps
hold. -/
theorem descriptor_id_independent_of_key_map :
    ∀ d1 d2 : Descriptor, d1.extended_descriptor = d2.extended_descriptor →
      d1.descriptor_id = d2.descriptor_id := by
  intro d1 d2 h
  unfold Descriptor.descriptor_id
  rw [h]

/-- Witness for C4: a key-carrying copy and a watch-only copy of the same expression
share one identifier. -/
theorem descriptor_id_independent_of_key_map_witness :
    Descriptor.descriptor_id
        ⟨idExprW, [(⟨none, ⟨3⟩, [.single ⟨0, false⟩], true⟩, idSecretW)]⟩
      = Descriptor.descriptor_id ⟨idExprW, []⟩ :=
  descriptor_id_independent_of_key_map _ _ rfl

/-- C3: parsing a descriptor whose embedded extended keys are encoded for network `a`
against a different requested network `b` fails with the `Key` error kind. -/
theorem new_network_mismatch_key_error :
    ∀ (t : DescriptorText) (a b : Network), ¬b = a → ¬t.keys = [] →
      (∀ k ∈ t.keys, k.encodedNetwork = a) →
      Descriptor.new t b = .error (DescriptorError.key "InvalidNetwork") := by
  intro t a b hba hne hall
  have hex : ∃ k ∈ t.keys, ¬k.encodedNetwork = b := by
    obtain ⟨k, hk⟩ := List.exists_mem_of_ne_nil t.keys hne
    refine ⟨k, hk, ?_⟩
    rw [hall k hk]
    exact fun h => hba h.symm
  unfold Descriptor.new intoWalletDescriptor
  rw [if_pos hex]

/-- Witness for C3: a testnet-encoded key parsed against mainnet. -/
theorem new_network_mismatch_key_error_witness :
    Descriptor.new netTextW .bitcoin = .error (DescriptorError.key "InvalidNetwork") :=
  new_network_mismatch_key_error netTextW .testnet .bitcoin (by decide) (by decide)
    (by decide)

/-- C8: every descriptor built by a public template constructor is watch-only: its
key map is empty and the secret-inclusive serialization equals the plain one. -/
theorem public_template_watch_only :
    ∀ (pk : BdkDescriptorPublicKey) (s : String) (kk : KeychainKind) (n : Network)
      (d : Descriptor),
      (Descriptor.new_bip44_public pk s kk n = .ok d
        ∨ Descriptor.new_bip49_public pk s kk n = .ok d
        ∨ Descriptor.new_bip84_public pk s kk n = .ok d
        ∨ Descriptor.new_bip86_public pk s kk n = .ok d) →
      d.key_map = [] ∧ d.to_string_with_secret = d.to_string := by
  intro pk s kk n d h
  rcases h with h | h | h | h <;>
    cases pk <;>
      cases hp : parseFingerprint s <;>
        simp only [Descriptor.new_bip44_public, Descriptor.new_bip49_public,
          Descriptor.new_bip84_public, Descriptor.new_bip86_public, hp] at h <;>
        first
          | exact Except.noConfusion h
          | (obtain rfl := Except.ok.inj h; exact ⟨rfl, rfl⟩)

/-- Witness for C8 at a concrete public key and fingerprint. -/
theorem public_template_watch_only_witness :
    (⟨(bipPublicBuild 84 .wpkh ⟨5⟩ 7 .external .testnet).1,
        (bipPublicBuild 84 .wpkh ⟨5⟩ 7 .external .testnet).2⟩ : Descriptor).key_map = []
    ∧ (⟨(bipPublicBuild 84 .wpkh ⟨5⟩ 7 .external .testnet).1,
        (bipPublicBuild 84 .wpkh ⟨5⟩ 7 .external .testnet).2⟩ :
          Descriptor).to_string_with_secret
      = (⟨(bipPublicBuild 84 .wpkh ⟨5⟩ 7 .external .testnet).1,
          (bipPublicBuild 84 .wpkh ⟨5⟩ 7 .external .testnet).2⟩ : Descriptor).to_string :=
  public_template_watch_only (.xpub ⟨none, ⟨5⟩, [], true⟩) "00000007" .external .testnet
    _ (Or.inr (Or.inr (Or.inl rfl)))

/-- C1: for a derivable master key, each template's private constructor and its public
counterpart — fed the key's derived public key and its master fingerprint — serialize
to identical strings (secrets excluded), and both return normally. -/
theorem template_private_public_equivalence :
    ∀ (k : Xprv) (kk : KeychainKind) (n : Network) (s : String),
      parseFingerprint s = some k.fingerprint →
      ∀ (so : Option (Nat × List ChildStep)) (sd : List ChildStep) (sw : Bool)
        (xo : Option (Nat × List ChildStep)) (xd : List DerivStep) (xw : Bool),
      (Descriptor.new_bip44 (.xprv ⟨so, k, sd, sw⟩) kk n).map Descriptor.to_string
          = (Descriptor.new_bip44_public
              (.xpub ⟨xo, (k.derivePath (templatePath 44 n)).neuter, xd, xw⟩) s kk n).map
                Descriptor.to_string
      ∧ (Descriptor.new_bip49 (.xprv ⟨so, k, sd, sw⟩) kk n).map Descriptor.to_string
          = (Descriptor.new_bip49_public
              (.xpub ⟨xo, (k.derivePath (templatePath 49 n)).neuter, xd, xw⟩) s kk n).map
                Descriptor.to_string
      ∧ (Descriptor.new_bip84 (.xprv ⟨so, k, sd, sw⟩) kk n).map Descriptor.to_string
          = (Descriptor.new_bip84_public
              (.xpub ⟨xo, (k.derivePath (templatePath 84 n)).neuter, xd, xw⟩) s kk n).map
                Descriptor.to_string
      ∧ (Descriptor.new_bip86 (.xprv ⟨so, k, sd, sw⟩) kk n).map Descriptor.to_string
          = (Descriptor.new_bip86_public
              (.xpub ⟨xo, (k.derivePath (templatePath 86 n)).neuter, xd, xw⟩) s kk n).map
                Descriptor.to_string
      ∧ (Descriptor.new_bip44 (.xprv ⟨so, k, sd, sw⟩) kk n).isOk = true
      ∧ (Descriptor.new_bip44_public
            (.xpub ⟨xo, (k.derivePath (templatePath 44 n)).neuter, xd, xw⟩) s kk n).isOk
          = true
      ∧ (Descriptor.new_bip84 (.xprv ⟨so, k, sd, sw⟩) kk n).isOk = true
      ∧ (Descriptor.new_bip84_public
            (.xpub ⟨xo, (k.derivePath (templatePath 84 n)).neuter, xd, xw⟩) s kk n).isOk
          = true := by
  intro k kk n s hfp so sd sw xo xd xw
  refine ⟨?_, ?_, ?_, ?_, ?_, ?_, ?_, ?_⟩ <;>
    simp only [Descriptor.new_bip44, Descriptor.new_bip49, Descriptor.new_bip84,
      Descriptor.new_bip86, Descriptor.new_bip44_public, Descriptor.new_bip49_public,
      Descriptor.new_bip84_public, Descriptor.new_bip86_public, hfp, bipBuild,
      bipPublicBuild, Except.map, Except.isOk, Except.toBool, Descriptor.to_string]

/-- Witness for C1: the BIP84 equality at a concrete master key on testnet. -/
theorem template_private_public_equivalence_witness :
    (Descriptor.new_bip84 (.xprv ⟨none, .master 7, [], false⟩) .external .testnet).map
        Descriptor.to_string
      = (Descriptor.new_bip84_public
          (.xpub ⟨none, ((Xprv.master 7).derivePath (templatePath 84 .testnet)).neuter,
            [], false⟩) "00000007" .external .testnet).map Descriptor.to_string :=
  (template_private_public_equivalence (.master 7) .external .testnet "00000007"
    (by decide) none [] false none [] false).2.2.1

/-- The weight result is a normal return carrying a strictly positive weight. -/
def returnsPositiveWeight : Except DescriptorError Nat → Prop
  | .ok w => 0 < w
  | .error _ => False

/-- C6: on every descriptor of a standard spendable script shape (pkh, sh-wpkh, wpkh,
tr — in particular every single-key segwit-v0 wpkh descriptor), the weight estimator
returns `Ok` with a strictly positive weight. -/
theorem max_weight_standard_positive :
    ∀ d : Descriptor, d.extended_descriptor.scriptTy.isStandard = true →
      returnsPositiveWeight d.max_weight_to_satisfy := by
  intro d h
  rcases d with ⟨⟨ty, ks⟩, km⟩
  cases ty <;>
    simp only [Descriptor.max_weight_to_satisfy, maxWeightInner, returnsPositiveWeight] <;>
    first
      | decide
      | exact absurd h (by simp [ScriptType.isStandard])

/-- Witness for C6: a concrete wpkh descriptor has positive satisfaction weight. -/
theorem max_weight_standard_positive_witness :
    returnsPositiveWeight (⟨idExprW, []⟩ : Descriptor).max_weight_to_satisfy :=
  max_weight_standard_positive ⟨idExprW, []⟩ rfl

/-- C7: whenever the underlying script analysis cannot bound the satisfaction cost,
`max_weight_to_satisfy` returns the descriptor-evaluation error wrapping the
underlying failure's message — it neither succeeds with a default weight nor aborts. -/
theorem max_weight_unbounded_miniscript_error :
    ∀ (d : Descriptor) (e : SatError),
      maxWeightInner d.extended_descriptor = .error e →
      d.max_weight_to_satisfy = .error (DescriptorError.miniscript e.message) := by
  intro d e h
  unfold Descriptor.max_weight_to_satisfy
  rw [h]

/-- Witness for C7: a malleable script-hash descriptor yields the wrapped error. -/
theorem max_weight_unbounded_miniscript_error_witness :
    (⟨⟨.shMs true 0, []⟩, []⟩ : Descriptor).max_weight_to_satisfy
      = .error (DescriptorError.miniscript SatError.unbounded.message) :=
  max_weight_unbounded_miniscript_error ⟨⟨.shMs true 0, []⟩, []⟩ .unbounded rfl

/-- A multipath key with sub-paths `<0;1>`. -/
def mpKeyW : KeyExpr := ⟨none, ⟨11⟩, [.multi [⟨0, false⟩, ⟨1, false⟩]], true⟩

/-- The secret entry of the multipath key. -/
def mpSecretW : SecretKeyExpr := ⟨none, .master 5, [], true⟩

/-- A parsed multipath descriptor carrying its secret in the key map. -/
def mpDescW : Descriptor := ⟨⟨.wpkh, [mpKeyW]⟩, [(mpKeyW, mpSecretW)]⟩

/-- The text that `mpDescW` is parsed from. -/
def mpTextW : DescriptorText := ⟨.wpkh, [⟨.testnet, mpKeyW, some mpSecretW⟩]⟩

/-- The two single-path descriptors `mpDescW` expands to. -/
def mpListW : List Descriptor :=
  [⟨⟨.wpkh, [⟨none, ⟨11⟩, [.single ⟨0, false⟩], true⟩]⟩, [(mpKeyW, mpSecretW)]⟩,
   ⟨⟨.wpkh, [⟨none, ⟨11⟩, [.single ⟨1, false⟩], true⟩]⟩, [(mpKeyW, mpSecretW)]⟩]

/-- The first expansion of `mpDescW`. -/
def mpSingleW0 : Descriptor :=
  ⟨⟨.wpkh, [⟨none, ⟨11⟩, [.single ⟨0, false⟩], true⟩]⟩, [(mpKeyW, mpSecretW)]⟩

/-- C5: on a validated multipath descriptor, `to_single_descriptors` succeeds with as
many outputs as the multipath marker has sub-paths, the `i`-th output is the source
expression with the `i`-th sub-path substituted (left-to-right order) paired with a
copy of the source key map, and a repeated call returns the same sequence. -/
theorem to_single_descriptors_ordered_deterministic :
    ∀ (d : Descriptor) (l : List Descriptor),
      d.is_multipath = true →
      d.to_single_descriptors = .ok l →
      l.length = d.extended_descriptor.multiArities.headD 0
      ∧ (∀ i, i < l.length →
          l[i]? = some ⟨d.extended_descriptor.expand i, d.key_map⟩)
      ∧ d.to_single_descriptors = .ok l := by
  intro d l hmp hok
  rcases harr : d.extended_descriptor.multiArities with _ | ⟨nh, rest⟩
  · exfalso
    unfold Descriptor.is_multipath isMultipathInner at hmp
    rw [harr] at hmp
    simp at hmp
  · have hall : rest.all (fun m => m == nh) = true := by
      by_contra hc
      have herr : intoSingleDescriptors d.extended_descriptor
          = .error .multipathDescLenMismatch := by
        unfold intoSingleDescriptors
        rw [harr]
        simp [hc]
      unfold Descriptor.to_single_descriptors at hok
      rw [herr] at hok
      exact Except.noConfusion hok
    have hsingle : intoSingleDescriptors d.extended_descriptor
        = .ok ((List.range nh).map d.extended_descriptor.expand) := by
      unfold intoSingleDescriptors
      rw [harr]
      simp [hall]
    have hl : l = (List.range nh).map
        (fun i => (⟨d.extended_descriptor.expand i, d.key_map⟩ : Descriptor)) := by
      unfold Descriptor.to_single_descriptors at hok
      rw [hsingle] at hok
      have hinj := Except.ok.inj hok
      rw [← hinj, List.map_map]
      rfl
    subst hl
    refine ⟨?_, ?_, hok⟩
    · simp [List.length_map, List.length_range]
    · intro i hi
      rw [List.length_map, List.length_range] at hi
      simp [List.getElem?_map, List.getElem?_range, hi]

/-- Witness for C5: the concrete `<0;1>` descriptor expands to two descriptors, the
first being the 0-sub-path expansion carrying the source key map. -/
theorem to_single_descriptors_ordered_deterministic_witness :
    mpListW.length = mpDescW.extended_descriptor.multiArities.headD 0
    ∧ mpListW[0]? = some ⟨mpDescW.extended_descriptor.expand 0, mpDescW.key_map⟩ := by
  have h := to_single_descriptors_ordered_deterministic mpDescW mpListW rfl rfl
  exact ⟨h.1, h.2.1 0 (by decide)⟩

/-- Counterexample for C9: the multipath descriptor `mpDescW` is produced by parsing,
its expansion is produced by `to_single_descriptors`, and the first expanded
descriptor violates the key-map invariant: its key map still holds the multipath
placeholder, which does not occur in the single-path expression. -/
theorem keymap_invariant_counterexample :
    Descriptor.new mpTextW .testnet = .ok mpDescW
    ∧ mpDescW.to_single_descriptors = .ok mpListW
    ∧ mpListW[0]? = some mpSingleW0
    ∧ ¬mpSingleW0.key_map = []
    ∧ ¬keyMapConsistent mpSingleW0 := by
  refine ⟨rfl, rfl, rfl, by decide, ?_⟩
  intro hc
  have hmem := hc (by decide) (mpKeyW, mpSecretW) (by decide)
  exact absurd hmem (by decide)

/-- The private-template output satisfies the key-map invariant. -/
theorem bipBuild_consistent (purpose : Nat) (ty : ScriptType) (xk : Xprv)
    (kk : KeychainKind) (n : Network) :
    keyMapConsistent ⟨(bipBuild purpose ty xk kk n).1, (bipBuild purpose ty xk kk n).2⟩ := by
  intro _ p hp
  simp only [bipBuild, List.mem_singleton] at hp
  subst hp
  simp [bipBuild]

/-- C9 amended: descriptors produced by parsing and by template construction satisfy
the key-map invariant; multipath expansion instead copies the source key map verbatim
onto every output (so an output may hold a private entry keyed by the original
multipath placeholder, which is absent from its single-path expression). -/
theorem keymap_invariant_amended :
    (∀ (t : DescriptorText) (n : Network) (d : Descriptor),
        Descriptor.new t n = .ok d → keyMapConsistent d)
    ∧ (∀ (sk : BdkDescriptorSecretKey) (kk : KeychainKind) (n : Network) (d : Descriptor),
        (Descriptor.new_bip44 sk kk n = .ok d
          ∨ Descriptor.new_bip49 sk kk n = .ok d
          ∨ Descriptor.new_bip84 sk kk n = .ok d
          ∨ Descriptor.new_bip86 sk kk n = .ok d) →
        keyMapConsistent d)
    ∧ (∀ (pk : BdkDescriptorPublicKey) (s : String) (kk : KeychainKind) (n : Network)
        (d : Descriptor),
        (Descriptor.new_bip44_public pk s kk n = .ok d
          ∨ Descriptor.new_bip49_public pk s kk n = .ok d
          ∨ Descriptor.new_bip84_public pk s kk n = .ok d
          ∨ Descriptor.new_bip86_public pk s kk n = .ok d) →
        keyMapConsistent d)
    ∧ (∀ (d : Descriptor) (l : List Descriptor),
        d.to_single_descriptors = .ok l → ∀ x ∈ l, x.key_map = d.key_map) := by
  refine ⟨?_, ?_, ?_, ?_⟩
  · intro t n d h
    unfold Descriptor.new intoWalletDescriptor at h
    by_cases hc : ∃ k ∈ t.keys, ¬k.encodedNetwork = n
    · rw [if_pos hc] at h
      exact Except.noConfusion h
    · rw [if_neg hc] at h
      obtain rfl := Except.ok.inj h
      intro hne p hp
      obtain ⟨k, hk, hfk⟩ := List.mem_filterMap.mp hp
      obtain ⟨sk, hsk, hpeq⟩ := Option.map_eq_some'.mp hfk
      rw [← hpeq]
      exact List.mem_map.mpr ⟨k, hk, rfl⟩
  · intro sk kk n d h
    rcases sk with key | x | x
    · rcases h with h | h | h | h <;> exact Except.noConfusion h
    · rcases h with h | h | h | h <;>
        (obtain rfl := Except.ok.inj h; exact bipBuild_consistent _ _ _ _ _)
    · rcases h with h | h | h | h <;> exact Except.noConfusion h
  · intro pk s kk n d h
    rcases h with h | h | h | h <;>
      cases pk <;>
        cases hp : parseFingerprint s <;>
          simp only [Descriptor.new_bip44_public, Descriptor.new_bip49_public,
            Descriptor.new_bip84_public, Descriptor.new_bip86_public, hp] at h <;>
          first
            | exact Except.noConfusion h
            | (obtain rfl := Except.ok.inj h; exact fun hne => absurd rfl hne)
  · intro d l h x hx
    unfold Descriptor.to_single_descriptors at h
    rcases hi : intoSingleDescriptors d.extended_descriptor with e | ds
    · rw [hi] at h
      exact Except.noConfusion h
    · rw [hi] at h
      obtain rfl := Except.ok.inj h
      obtain ⟨e, he, rfl⟩ := List.mem_map.mp hx
      rfl

/-- A concrete BIP44 private-template output. -/
def tplDescW : Descriptor :=
  ⟨(bipBuild 44 .pkh (.master 3) .external .bitcoin).1,
   (bipBuild 44 .pkh (.master 3) .external .bitcoin).2⟩

/-- Witness for the amended C9 at a concrete template construction. -/
theorem keymap_invariant_amended_witness : keyMapConsistent tplDescW :=
  keymap_invariant_amended.2.1 (.xprv ⟨none, .master 3, [], false⟩) .external .bitcoin
    tplDescW (Or.inl rfl)
